import Mathlib

/-!
Verification of the risc0 benchmark harness and wasm receipt boundary.

Shallow embedding of two source files:
* `risc0/js/src/lib.rs` — the receipt-verification boundary
  (`SessionReceipt::bincode_deserialize`, `journal`, `validate`);
* `benchmarks/src/benches/iter_pedersen.rs` — the `Job` benchmark
  implementation (`job_size`, `output_size_bytes`, `proof_size_bytes`,
  `new`, `host_compute`, `verify_proof`).

Bytes are modelled as `Nat` (values `< 256` where the source guarantees it);
machine-integer casts (`as u8`, `as u32`) appear as explicit `% 2^8`,
`% 2^32`. External collaborators (the `bincode` codec, the cryptographic
verifier, the pedersen-hash primitive) are modelled abstractly, as the
spec treats them: opaque total functions supplied as parameters or fields.
-/

namespace Risc0

/-- A `JsError` produced by the wasm boundary: either the implicit
conversion of a `TryFromSliceError` (raised by `image_id.try_into()` when
the slice is not exactly 32 bytes) or an explicit `JsError::new(msg)`. -/
inductive JsError where
  | sliceConversion : JsError
  | message : String → JsError
deriving DecidableEq

/-- Modelled from the spec: the proof artifact held by the boundary's
receipt handle (`risc0_zkvm::receipt::SessionReceipt`, an external
collaborator). Per the spec's ProofArtifact data model it carries a public
output buffer (`journal`) and supports verification against a 32-byte
method identity using only the artifact and the identity; the cryptographic
verifier itself is out of scope, so it is an abstract field returning
either success or an error cause. -/
structure SessionReceipt where
  journal : List Nat
  verify : List Nat → Except String Unit

/-- `SessionReceipt::bincode_deserialize` from `risc0/js/src/lib.rs`:
decodes `buffer` with the external `bincode` codec (abstract total
`decode` parameter), wrapping any decode failure into a `JsError` whose
message prepends a human-readable cause. -/
def bincode_deserialize (decode : List Nat → Except String SessionReceipt)
    (buffer : List Nat) : Except JsError SessionReceipt :=
  match decode buffer with
  | Except.error e => Except.error (JsError.message ("Failed to deserialize receipt: " ++ e))
  | Except.ok r => Except.ok r

/-- `SessionReceipt::journal` getter from `risc0/js/src/lib.rs`: returns a
copy (`clone`) of the inner receipt's journal. -/
def SessionReceipt.getJournal (r : SessionReceipt) : List Nat :=
  r.journal

/-- `SessionReceipt::validate` from `risc0/js/src/lib.rs`:
`image_id.try_into()` into `[u8; 32]` succeeds exactly when the slice has
length 32 (otherwise the `TryFromSliceError` converts to a `JsError` via
`?`); on success the inner receipt's `verify` runs and any error is mapped
to a `JsError` message carrying the cause. -/
def SessionReceipt.validate (r : SessionReceipt) (image_id : List Nat) :
    Except JsError Unit :=
  if image_id.length = 32 then
    match r.verify image_id with
    | Except.ok _ => Except.ok ()
    | Except.error e => Except.error (JsError.message ("Failed to validate proof: " ++ e))
  else
    Except.error JsError.sliceConversion

/-- `validate` takes `&self`: as a state transformer on the handle it
returns its result alongside the (unchanged) handle. -/
def SessionReceipt.validateStep (r : SessionReceipt) (image_id : List Nat) :
    Except JsError Unit × SessionReceipt :=
  (r.validate image_id, r)

end Risc0

namespace Bench

/-- A segment receipt of the proof artifact, as the spec's ProofArtifact
data model presents it: one opaque cryptographic seal per execution
segment; `seal_bytes` is the byte string returned by `get_seal_bytes`. -/
structure SegmentReceipt where
  seal_bytes : List Nat
deriving DecidableEq

/-- Modelled from the spec: the external `risc0_zkvm::Receipt` proof
artifact — a public output buffer (`journal`) plus one seal per execution
segment (`inner.flat()` in the source exposes exactly this segment list),
verifiable against a method identity using only the artifact and the
identity (abstract `verify` field, the cryptographic verifier being out of
scope). -/
structure Receipt where
  journal : List Nat
  segments : List SegmentReceipt
  verify : List Nat → Except String Unit

/-- A digest (`risc0_zkvm::sha::Digest`), the benchmark's `ComputeOut`:
32 bytes. -/
def Digest := List Nat
deriving DecidableEq

/-- `ExitCode` of an execution trace; the harness only constructs
`Halted(0)`. -/
inductive ExitCode where
  | halted : Nat → ExitCode
deriving DecidableEq

/-- The execution trace (`risc0_zkvm::Session`): segments, journal and
exit code, as constructed by `Session::new` in `Job::new`. -/
structure Session where
  segments : List Nat
  journal : List Nat
  exitCode : ExitCode
deriving DecidableEq

/-- The benchmark `Job` of `iter_pedersen.rs`: the spec scalar, the
encoded guest-input buffer held by its execution environment, and the
placeholder execution trace. The program image and proving backend are
opaque external handles and carry no data relevant to the verified
properties. -/
structure Job where
  spec : Nat
  env : List Nat
  session : Session
deriving DecidableEq

/-- `Job::job_size` of the `Benchmark` impl: dereferences the spec. -/
def job_size (spec : Nat) : Nat :=
  spec

/-- `Job::job_size` of the `BenchmarkAverage` impl: dereferences the
spec. -/
def job_size_average (spec : Nat) : Nat :=
  spec

/-- `Job::output_size_bytes`: `proof.journal.len() as u32` — the journal
byte length cast to `u32`; the `output` argument is ignored (`_output`). -/
def output_size_bytes (_output : Digest) (proof : Receipt) : Nat :=
  proof.journal.length % 2 ^ 32

/-- `Job::proof_size_bytes`: folds `acc + segment.get_seal_bytes().len()`
over the segment list starting from 0, then casts the sum to `u32`. -/
def proof_size_bytes (proof : Receipt) : Nat :=
  (proof.segments.foldl (fun acc segment => acc + segment.seal_bytes.length) 0) % 2 ^ 32

/-- The guest-input buffer built by `Job::new` of the `Benchmark` impl:
`Vec::from([0u8; 36])`, then bytes 0..3 overwritten with
`spec as u8`, `(spec >> 8) as u8`, `(spec >> 16) as u8`,
`(spec >> 24) as u8`. -/
def guest_input (spec : Nat) : List Nat :=
  (((((List.replicate 36 0).set 0 (spec % 2 ^ 8)).set 1
      ((spec >>> 8) % 2 ^ 8)).set 2
      ((spec >>> 16) % 2 ^ 8)).set 3
      ((spec >>> 24) % 2 ^ 8))

/-- The guest-input buffer built by `Job::new` of the `BenchmarkAverage`
impl (textually identical construction in the source). -/
def guest_input_average (spec : Nat) : List Nat :=
  (((((List.replicate 36 0).set 0 (spec % 2 ^ 8)).set 1
      ((spec >>> 8) % 2 ^ 8)).set 2
      ((spec >>> 16) % 2 ^ 8)).set 3
      ((spec >>> 24) % 2 ^ 8))

/-- `Job::new` of the `Benchmark` impl: stores the spec, builds the
environment from the encoded guest input, and initializes the placeholder
trace `Session::new(vec![], vec![], ExitCode::Halted(0))`. -/
def Job.new (spec : Nat) : Job :=
  { spec := spec
    env := guest_input spec
    session := ⟨[], [], ExitCode.halted 0⟩ }

/-- `Job::new` of the `BenchmarkAverage` impl: same fields, with the
averaging variant's input encoding (the proving backend differs but is an
external handle). -/
def Job.newAverage (spec : Nat) : Job :=
  { spec := spec
    env := guest_input_average spec
    session := ⟨[], [], ExitCode.halted 0⟩ }

/-- First hard-coded field element of `host_compute`
(`FieldElement::from_hex_be("0x03d937c0…71cb")`). -/
def e0 : Nat :=
  0x03d937c035c878245caf64531a5756109c53068da139362728feb561405371cb

/-- Second hard-coded field element of `host_compute`
(`FieldElement::from_hex_be("0x0208a0a1…b31a")`). -/
def e1 : Nat :=
  0x0208a0a10250e382e1e4bbe2880906c2791bf6275695e02fbbc6aeff9cd8b31a

/-- `FieldElement::to_bytes_be`: the 32 big-endian bytes of the field
element's 256-bit representation. -/
def toBytesBE (x : Nat) : List Nat :=
  (List.range 32).map (fun i => (x >>> (8 * (31 - i))) % 2 ^ 8)

/-- `Job::host_compute`: hashes the two hard-coded field elements with the
external pedersen primitive (abstract `pedersen` parameter, per the spec
out of scope) and converts the 32-byte big-endian encoding of the result
into a `Digest` (`Digest::try_from` on a 32-byte slice always succeeds).
The job state is untouched (`&mut self` is never read). -/
def host_compute (pedersen : Nat → Nat → Nat) (_job : Job) : Option Digest :=
  some (toBytesBE (pedersen e0 e1))

/-- The workload's method identity (`ITER_PEDERSEN_ID`). Modelled from the
spec: a fixed digest of 8 32-bit words produced by the external build; its
concrete value is opaque and irrelevant to the verified properties, which
quantify over the verifier. -/
def METHOD_ID : List Nat :=
  List.replicate 8 0

/-- `Job::verify_proof`: runs `proof.verify(METHOD_ID)`; `Ok` maps to
`true`, any `Err` is logged and maps to `false`; the `output` argument is
ignored (`_output`). -/
def verify_proof (_output : Digest) (proof : Receipt) : Bool :=
  match proof.verify METHOD_ID with
  | Except.ok _ => true
  | Except.error _ => false

end Bench

/-! Concrete artifacts used by the closed witness theorems below. -/

/-- A concrete boundary receipt handle whose (abstract) verifier accepts
every identity. -/
def wReceipt : Risc0.SessionReceipt :=
  { journal := [1, 2, 3], verify := fun _ => Except.ok () }

/-- A concrete boundary receipt handle whose verifier rejects every
identity with a fixed cause. -/
def wBadReceipt : Risc0.SessionReceipt :=
  { journal := [], verify := fun _ => Except.error "image_id mismatch" }

/-- A concrete benchmark proof artifact with two segments, seals of 3 and
2 bytes, and a 1-byte journal. -/
def twoSegReceipt : Bench.Receipt :=
  { journal := [7], segments := [⟨[1, 2, 3]⟩, ⟨[4, 5]⟩], verify := fun _ => Except.ok () }

/-- A concrete benchmark proof artifact with no segments and an empty
journal. -/
def emptyReceipt : Bench.Receipt :=
  { journal := [], segments := [], verify := fun _ => Except.ok () }

/-- A benchmark proof artifact with a single segment whose seal holds
`2 ^ 32` bytes: the `as u32` cast in `proof_size_bytes` truncates its
size. -/
def bigSealReceipt : Bench.Receipt :=
  { journal := [], segments := [⟨List.replicate (2 ^ 32) 0⟩], verify := fun _ => Except.ok () }

/-- A benchmark proof artifact whose journal holds `2 ^ 32` bytes: the
`as u32` cast in `output_size_bytes` truncates its length. -/
def bigJournalReceipt : Bench.Receipt :=
  { journal := List.replicate (2 ^ 32) 0, segments := [], verify := fun _ => Except.ok () }

/-! Theorems. -/

/-- Accumulating the seal byte lengths with `foldl` (as `proof_size_bytes`
does) computes the accumulator plus the sum of the lengths. -/
theorem foldl_add_seal_length (segs : List Bench.SegmentReceipt) (acc : Nat) :
    segs.foldl (fun a s => a + s.seal_bytes.length) acc
      = acc + (segs.map (fun s => s.seal_bytes.length)).sum := by
  induction segs generalizing acc with
  | nil => simp
  | cons s t ih => simp [ih, Nat.add_assoc]

/-- `proof_size_bytes` computes the sum of the seal byte lengths over the
segment list, reduced by the `as u32` cast. -/
theorem proof_size_bytes_eq (proof : Bench.Receipt) :
    Bench.proof_size_bytes proof =
      (proof.segments.map (fun s => s.seal_bytes.length)).sum % 2 ^ 32 := by
  unfold Bench.proof_size_bytes
  rw [foldl_add_seal_length, Nat.zero_add]

/-- `output_size_bytes` computes the journal byte length, reduced by the
`as u32` cast. -/
theorem output_size_bytes_eq (output : Bench.Digest) (proof : Bench.Receipt) :
    Bench.output_size_bytes output proof = proof.journal.length % 2 ^ 32 :=
  rfl

/-- C1: `validate` on an `image_id` that is not exactly 32 bytes returns
the slice-conversion (format) error, independently of the receipt and
without consulting its verifier; on a 32-byte `image_id` it returns `Ok(())`
exactly when the artifact verifier accepts, and otherwise a validation
error carrying the underlying cause. -/
theorem validate_length_check (r : Risc0.SessionReceipt) (image_id : List Nat) :
    (image_id.length ≠ 32 →
      r.validate image_id = Except.error Risc0.JsError.sliceConversion) ∧
    (image_id.length = 32 →
      (r.validate image_id = Except.ok () ↔ r.verify image_id = Except.ok ()) ∧
      (∀ e, r.verify image_id = Except.error e →
        r.validate image_id =
          Except.error (Risc0.JsError.message ("Failed to validate proof: " ++ e)))) := by
  constructor
  · intro h
    simp [Risc0.SessionReceipt.validate, h]
  · intro h
    refine ⟨?_, ?_⟩
    · cases hv : r.verify image_id with
      | ok u => simp [Risc0.SessionReceipt.validate, h, hv]
      | error e => simp [Risc0.SessionReceipt.validate, h, hv]
    · intro e he
      simp [Risc0.SessionReceipt.validate, h, he]

/-- Witness for C1: a 31-byte identity yields the format error and a
32-byte identity on an accepting receipt yields `Ok(())`; a 32-byte
identity on a rejecting receipt yields the validation error with cause. -/
theorem validate_length_check_witness :
    wReceipt.validate (List.replicate 31 0) = Except.error Risc0.JsError.sliceConversion ∧
    wReceipt.validate (List.replicate 32 0) = Except.ok () ∧
    wBadReceipt.validate (List.replicate 32 0) =
      Except.error (Risc0.JsError.message "Failed to validate proof: image_id mismatch") :=
  ⟨(validate_length_check wReceipt (List.replicate 31 0)).1 (by decide),
   ((validate_length_check wReceipt (List.replicate 32 0)).2 (by decide)).1.mpr rfl,
   ((validate_length_check wBadReceipt (List.replicate 32 0)).2 (by decide)).2
     "image_id mismatch" rfl⟩

/-- C2: for every decoder behaviour and every input buffer (the empty
buffer included), `bincode_deserialize` returns either a parsed receipt
handle or a decoding error whose message carries the human-readable
cause; the embedding is a total function, so no input can make it
panic. -/
theorem bincode_deserialize_total
    (decode : List Nat → Except String Risc0.SessionReceipt) (buffer : List Nat) :
    (∃ r, Risc0.bincode_deserialize decode buffer = Except.ok r) ∨
    (∃ cause, Risc0.bincode_deserialize decode buffer =
        Except.error (Risc0.JsError.message ("Failed to deserialize receipt: " ++ cause))) := by
  cases h : decode buffer with
  | ok r => exact Or.inl ⟨r, by simp [Risc0.bincode_deserialize, h]⟩
  | error e => exact Or.inr ⟨e, by simp [Risc0.bincode_deserialize, h]⟩

/-- C3 (counterexample): on an artifact with one segment whose seal holds
`2 ^ 32` bytes, `proof_size_bytes` returns `0`, not the sum of the seal
lengths — the `as u32` cast truncates. -/
theorem proof_size_bytes_overflow :
    ¬ Bench.proof_size_bytes bigSealReceipt =
        (bigSealReceipt.segments.map (fun s => s.seal_bytes.length)).sum := by
  have hseg : bigSealReceipt.segments = [⟨List.replicate (2 ^ 32) 0⟩] := rfl
  have hsum : (bigSealReceipt.segments.map (fun s => s.seal_bytes.length)).sum = 2 ^ 32 := by
    simp only [hseg, List.map_cons, List.map_nil, List.sum_cons, List.sum_nil,
      List.length_replicate, Nat.add_zero]
  intro h
  rw [proof_size_bytes_eq bigSealReceipt, hsum, Nat.mod_self] at h
  exact absurd h (by decide)

/-- C3 (amended): `proof_size_bytes` equals the sum of the serialized seal
byte lengths across all segments reduced modulo `2 ^ 32` (the `u32`
cast); on zero segments it is exactly `0`; whenever the sum fits in a
`u32` it equals the sum exactly; it is total, so it never errors. -/
theorem proof_size_bytes_spec (proof : Bench.Receipt) :
    Bench.proof_size_bytes proof =
      (proof.segments.map (fun s => s.seal_bytes.length)).sum % 2 ^ 32 ∧
    (proof.segments = [] → Bench.proof_size_bytes proof = 0) ∧
    ((proof.segments.map (fun s => s.seal_bytes.length)).sum < 2 ^ 32 →
      Bench.proof_size_bytes proof =
        (proof.segments.map (fun s => s.seal_bytes.length)).sum) := by
  refine ⟨proof_size_bytes_eq proof, ?_, ?_⟩
  · intro h
    rw [proof_size_bytes_eq proof, h]
    simp
  · intro h
    rw [proof_size_bytes_eq proof, Nat.mod_eq_of_lt h]

/-- Witness for C3 (amended): zero segments yield `0`; two segments with
seals of 3 and 2 bytes yield `5`. -/
theorem proof_size_bytes_spec_witness :
    Bench.proof_size_bytes emptyReceipt = 0 ∧
    Bench.proof_size_bytes twoSegReceipt = 5 := by
  constructor
  · exact (proof_size_bytes_spec emptyReceipt).2.1 rfl
  · have h := (proof_size_bytes_spec twoSegReceipt).2.2 (by simp [twoSegReceipt])
    simpa [twoSegReceipt] using h

/-- C4: `verify_proof` returns `true` exactly when the artifact's verifier
accepts the method identity and `false` exactly when it returns an error
(which is logged, not propagated); as a total boolean function it never
crashes the caller. -/
theorem verify_proof_boolean (output : Bench.Digest) (proof : Bench.Receipt) :
    (Bench.verify_proof output proof = true ↔
      proof.verify Bench.METHOD_ID = Except.ok ()) ∧
    (Bench.verify_proof output proof = false ↔
      ∃ e, proof.verify Bench.METHOD_ID = Except.error e) := by
  cases h : proof.verify Bench.METHOD_ID with
  | ok u => simp [Bench.verify_proof, h]
  | error e => simp [Bench.verify_proof, h]

/-- C5: for every 32-bit spec, both `Job::new` implementations build the
same 36-byte guest-input buffer whose bytes 0–3 are the spec in
little-endian order (they reconstruct the spec) and whose remaining 32
bytes are zero. -/
theorem guest_input_encoding (spec : Nat) (h : spec < 2 ^ 32) :
    Bench.guest_input_average spec = Bench.guest_input spec ∧
    (Bench.Job.new spec).env = Bench.guest_input spec ∧
    (Bench.Job.newAverage spec).env = Bench.guest_input spec ∧
    (Bench.guest_input spec).length = 36 ∧
    (Bench.guest_input spec).take 4 =
      [spec % 2 ^ 8, (spec >>> 8) % 2 ^ 8, (spec >>> 16) % 2 ^ 8, (spec >>> 24) % 2 ^ 8] ∧
    spec % 2 ^ 8 + 2 ^ 8 * ((spec >>> 8) % 2 ^ 8) + 2 ^ 16 * ((spec >>> 16) % 2 ^ 8)
        + 2 ^ 24 * ((spec >>> 24) % 2 ^ 8) = spec ∧
    (Bench.guest_input spec).drop 4 = List.replicate 32 0 := by
  refine ⟨rfl, rfl, rfl, rfl, rfl, ?_, rfl⟩
  simp only [Nat.shiftRight_eq_div_pow]
  omega

/-- Witness for C5: the encoding at spec `0x01020304`. -/
theorem guest_input_encoding_witness :
    (Bench.guest_input 0x01020304).take 4 = [4, 3, 2, 1] ∧
    (Bench.guest_input 0x01020304).drop 4 = List.replicate 32 0 := by
  have h := guest_input_encoding 0x01020304 (by decide)
  exact ⟨by rw [h.2.2.2.2.1]; decide, h.2.2.2.2.2.2⟩

/-- C6 (counterexample): on an artifact whose journal holds `2 ^ 32`
bytes, `output_size_bytes` returns `0`, not the journal's byte length —
the `as u32` cast truncates. -/
theorem output_size_bytes_overflow :
    ¬ Bench.output_size_bytes [] bigJournalReceipt = bigJournalReceipt.journal.length := by
  have hj : bigJournalReceipt.journal = List.replicate (2 ^ 32) 0 := rfl
  have hlen : bigJournalReceipt.journal.length = 2 ^ 32 := by
    rw [hj, List.length_replicate]
  intro h
  rw [output_size_bytes_eq [] bigJournalReceipt, hlen, Nat.mod_self] at h
  exact absurd h (by decide)

/-- C6 (amended): `output_size_bytes` equals the journal's byte length
reduced modulo `2 ^ 32` (the `u32` cast) — exactly the length whenever it
fits in a `u32` — and is identical for any two output values with the
same proof, since it ignores the output entirely. -/
theorem output_size_bytes_spec (output : Bench.Digest) (proof : Bench.Receipt) :
    Bench.output_size_bytes output proof = proof.journal.length % 2 ^ 32 ∧
    (∀ output2, Bench.output_size_bytes output2 proof =
        Bench.output_size_bytes output proof) ∧
    (proof.journal.length < 2 ^ 32 →
      Bench.output_size_bytes output proof = proof.journal.length) := by
  refine ⟨rfl, fun _ => rfl, ?_⟩
  intro h
  simpa [Bench.output_size_bytes] using Nat.mod_eq_of_lt h

/-- Witness for C6 (amended): the 1-byte journal of the two-segment
artifact measures `1`, for two different output values. -/
theorem output_size_bytes_spec_witness :
    Bench.output_size_bytes [] twoSegReceipt = 1 ∧
    Bench.output_size_bytes [9] twoSegReceipt = 1 := by
  have h := (output_size_bytes_spec ([] : Bench.Digest) twoSegReceipt).2.2
    (by simp [twoSegReceipt])
  have h2 := (output_size_bytes_spec ([9] : Bench.Digest) twoSegReceipt).2.2
    (by simp [twoSegReceipt])
  exact ⟨by simpa [twoSegReceipt] using h, by simpa [twoSegReceipt] using h2⟩

/-- C7: both `job_size` implementations return exactly the scalar spec
value they are given, as pure functions. -/
theorem job_size_identity (spec : Nat) :
    Bench.job_size spec = spec ∧ Bench.job_size_average spec = spec :=
  ⟨rfl, rfl⟩

/-- C8: `validate` takes the handle by shared reference, so running it
twice in succession with the same identity returns the same result both
times and leaves the handle unchanged. -/
theorem validate_idempotent (r : Risc0.SessionReceipt) (image_id : List Nat) :
    ((r.validateStep image_id).2.validateStep image_id).1 = (r.validateStep image_id).1 ∧
    ((r.validateStep image_id).2.validateStep image_id).2 = (r.validateStep image_id).2 :=
  ⟨rfl, rfl⟩

/-- C9: `journal` returns a copy of the artifact's public output buffer,
is total (never fails), and leaves the handle unchanged, so calls before
and after `validate` return identical bytes. -/
theorem journal_pure (r : Risc0.SessionReceipt) (image_id : List Nat) :
    r.getJournal = r.journal ∧
    (r.validateStep image_id).2 = r ∧
    (r.validateStep image_id).2.getJournal = r.getJournal :=
  ⟨rfl, rfl, rfl⟩

/-- C10: `host_compute` returns `some` of the digest of the pedersen hash
of the two fixed hard-coded field elements, for every job regardless of
its spec and state, and never returns `none`. -/
theorem host_compute_constant (pedersen : Nat → Nat → Nat) (j j2 : Bench.Job) :
    Bench.host_compute pedersen j =
      some (Bench.toBytesBE (pedersen Bench.e0 Bench.e1)) ∧
    Bench.host_compute pedersen j = Bench.host_compute pedersen j2 ∧
    Bench.host_compute pedersen j ≠ none := by
  refine ⟨rfl, rfl, ?_⟩
  simp [Bench.host_compute]
